import Mathlib

/-!
Shallow embedding of the ghostbind build-artifact resolution and
manifest-synthesis pipeline: target-triple translation
(src/target_mapping.rs), artifact discovery and caching
(src/artifact_discovery.rs), crate metadata target extraction
(src/cargo_integration.rs), manifest generation, persistence and
validation (src/manifest.rs), and the build-command wiring
(src/cli.rs).  Paths are modelled as strings joined with "/",
the filesystem as a predicate `String → Bool` (Rust `Path::exists`),
and the compile-time `cfg!(target_os = ...)` switches as an explicit
`HostOS` parameter.
-/

namespace Ghostbind

/-- PathBuf::join with a relative component: append a separator and the component. -/
def pjoin (a b : String) : String := a ++ "/" ++ b

/-! ## target_mapping.rs -/

/-- The fixed zig_to_rust mapping table built in TargetMapping::new
(HashMap with pairwise-distinct keys, modelled as an association list). -/
def zig_to_rust_table : List (String × String) :=
  [ ("x86_64-linux-gnu", "x86_64-unknown-linux-gnu"),
    ("x86_64-linux-musl", "x86_64-unknown-linux-musl"),
    ("aarch64-linux-gnu", "aarch64-unknown-linux-gnu"),
    ("aarch64-linux-musl", "aarch64-unknown-linux-musl"),
    ("i386-linux-gnu", "i686-unknown-linux-gnu"),
    ("x86_64-macos", "x86_64-apple-darwin"),
    ("aarch64-macos", "aarch64-apple-darwin"),
    ("x86_64-windows-gnu", "x86_64-pc-windows-gnu"),
    ("x86_64-windows-msvc", "x86_64-pc-windows-msvc"),
    ("i386-windows-gnu", "i686-pc-windows-gnu"),
    ("i386-windows-msvc", "i686-pc-windows-msvc"),
    ("aarch64-windows", "aarch64-pc-windows-msvc"),
    ("x86_64-freebsd", "x86_64-unknown-freebsd") ]

/-- TargetMapping::map_target: exact-string lookup in the table. -/
def map_target (zig_target : String) : Option String :=
  zig_to_rust_table.lookup zig_target

/-- TargetMapping::map_target_or_default: lookup miss returns the input unchanged. -/
def map_target_or_default (zig_target : String) : String :=
  (map_target zig_target).getD zig_target

/-! ## cargo_integration.rs -/

inductive BuildProfile where
  | Debug
  | Release
deriving DecidableEq

/-- BuildProfile::as_str. -/
def BuildProfile.as_str : BuildProfile → String
  | .Debug => "debug"
  | .Release => "release"

inductive TargetKind where
  | StaticLib
  | CdyLib
  | Bin
  | Other (raw : String)
deriving DecidableEq

/-- Loop body of TargetKind::from_cargo_kinds: scan the kind tags,
returning at the first recognized one; `all` keeps the full list for the
fallback Other(kinds.join(",")). -/
def from_cargo_kinds_loop (all : List String) : List String → TargetKind
  | [] => .Other (String.intercalate "," all)
  | k :: rest =>
    if k = "staticlib" then .StaticLib
    else if k = "cdylib" then .CdyLib
    else if k = "bin" then .Bin
    else from_cargo_kinds_loop all rest

/-- TargetKind::from_cargo_kinds. -/
def from_cargo_kinds (kinds : List String) : TargetKind :=
  from_cargo_kinds_loop kinds kinds

/-- TargetKind::is_library. -/
def TargetKind.is_library : TargetKind → Bool
  | .StaticLib => true
  | .CdyLib => true
  | _ => false

structure CrateTarget where
  name : String
  kind : TargetKind
deriving DecidableEq

/-- Whether a cargo target's kind tags include "staticlib" or "cdylib" —
the filter in CargoBuilder::extract_crate_info. -/
def has_library_tag (kinds : List String) : Bool :=
  kinds.any (fun k => k == "staticlib" || k == "cdylib")

/-- The target-extraction core of CargoBuilder::extract_crate_info:
from the package's declared targets (name, kind tags), keep those whose
kind tags include "staticlib" or "cdylib" and derive each TargetKind. -/
def extract_targets (targets : List (String × List String)) : List CrateTarget :=
  (targets.filter (fun t => has_library_tag t.2)).map
    (fun t => { name := t.1, kind := from_cargo_kinds t.2 })

/-! ## artifact_discovery.rs -/

/-- The compile-time cfg!(target_os = ...) switch, made an explicit
parameter: windows, macos, or any other unix. -/
inductive HostOS where
  | windows
  | macos
  | otherUnix
deriving DecidableEq

inductive ArtifactKind where
  | StaticLib
  | DynamicLib
deriving DecidableEq

/-- ArtifactKind::from_target_kind. -/
def ArtifactKind.from_target_kind : TargetKind → Option ArtifactKind
  | .StaticLib => some .StaticLib
  | .CdyLib => some .DynamicLib
  | _ => none

/-- ArtifactKind::as_str. -/
def ArtifactKind.as_str : ArtifactKind → String
  | .StaticLib => "staticlib"
  | .DynamicLib => "cdylib"

structure DiscoveredArtifact where
  name : String
  kind : ArtifactKind
  original_path : String
  cached_path : String
deriving DecidableEq

structure ArtifactDiscovery where
  target_dir : String
  target_triple : Option String
  profile : BuildProfile
  cache_dir : String
deriving DecidableEq

/-- ArtifactDiscovery::new: the cache directory is fixed to ".ghostbind/cache". -/
def ArtifactDiscovery.new (target_dir : String) (target_triple : Option String)
    (profile : BuildProfile) : ArtifactDiscovery :=
  { target_dir := target_dir, target_triple := target_triple,
    profile := profile, cache_dir := ".ghostbind/cache" }

/-- ArtifactDiscovery::get_build_directory:
{build-root}/[{target-triple}/]{profile}. -/
def ArtifactDiscovery.get_build_directory (d : ArtifactDiscovery) : String :=
  let base := match d.target_triple with
    | some t => pjoin d.target_dir t
    | none => d.target_dir
  pjoin base d.profile.as_str

/-- Rust str::replace('-', "_"): the pattern and replacement are single
characters, so it is a per-character map. -/
def normalize_crate_name (s : String) : String :=
  String.mk (s.toList.map (fun c => if c = '-' then '_' else c))

/-- ArtifactDiscovery::get_library_patterns: candidate filenames per
kind and host platform, with crate-name hyphens normalized to underscores. -/
def get_library_patterns (os : HostOS) (crate_name : String) (kind : ArtifactKind) :
    List String :=
  let normalized_name := normalize_crate_name crate_name
  match kind with
  | .StaticLib =>
    match os with
    | .windows => [normalized_name ++ ".lib"]
    | _ => ["lib" ++ normalized_name ++ ".a"]
  | .DynamicLib =>
    match os with
    | .windows => [normalized_name ++ ".dll", normalized_name ++ ".dll.lib"]
    | .macos => ["lib" ++ normalized_name ++ ".dylib"]
    | .otherUnix => ["lib" ++ normalized_name ++ ".so"]

/-- ArtifactDiscovery::get_artifact_extension: by kind and host platform only. -/
def get_artifact_extension (os : HostOS) (kind : ArtifactKind) : String :=
  match kind with
  | .StaticLib => match os with
    | .windows => "lib"
    | _ => "a"
  | .DynamicLib => match os with
    | .windows => "dll"
    | .macos => "dylib"
    | .otherUnix => "so"

/-- ArtifactDiscovery::get_cache_path:
{cache-root}/{triple-or-native}/{profile}/{crate}.{ext}. -/
def ArtifactDiscovery.get_cache_path (d : ArtifactDiscovery) (os : HostOS)
    (crate_name : String) (kind : ArtifactKind) : String :=
  let target_str := d.target_triple.getD "native"
  pjoin (pjoin (pjoin d.cache_dir target_str) d.profile.as_str)
    (crate_name ++ "." ++ get_artifact_extension os kind)

/-- The probe loop of ArtifactDiscovery::find_artifact: try each
candidate filename in order under the build directory; the first whose
path exists on the filesystem wins. -/
def probe_patterns (fs : String → Bool) (build_dir : String) :
    List String → Option String
  | [] => none
  | p :: rest =>
    let artifact_path := pjoin build_dir p
    if fs artifact_path then some artifact_path else probe_patterns fs build_dir rest

/-- ArtifactDiscovery::find_artifact, with the filesystem
(Path::exists) passed explicitly. -/
def ArtifactDiscovery.find_artifact (d : ArtifactDiscovery) (os : HostOS)
    (fs : String → Bool) (crate_name : String) (kind : ArtifactKind) :
    Except String DiscoveredArtifact :=
  let build_dir := d.get_build_directory
  match probe_patterns fs build_dir (get_library_patterns os crate_name kind) with
  | some artifact_path =>
    .ok { name := crate_name, kind := kind, original_path := artifact_path,
          cached_path := d.get_cache_path os crate_name kind }
  | none =>
    .error ("Could not find " ++ kind.as_str ++ " artifact for crate \x27" ++
      crate_name ++ "\x27 in " ++ build_dir)

/-! ## manifest.rs -/

structure GeneratedHeader where
  crate_name : String
  header_path : String
deriving DecidableEq

structure BuildManifest where
  crate_name : String
  kind : String
  artifact : String
  headers : List String
  rustc_target : String
  link_libs : List String
  link_search : List String
deriving DecidableEq

/-- Rust str::contains(needle): substring containment, modelled on the
character lists. `starts_with_chars s pat` is "pat is a prefix of s". -/
def starts_with_chars : List Char → List Char → Bool
  | _, [] => true
  | [], _ :: _ => false
  | c :: cs, p :: ps => c == p && starts_with_chars cs ps

def contains_sub_chars (pat : List Char) : List Char → Bool
  | [] => pat.isEmpty
  | c :: cs => starts_with_chars (c :: cs) pat || contains_sub_chars pat cs

def str_contains (s pat : String) : Bool :=
  contains_sub_chars pat.toList s.toList

/-- ManifestGenerator::get_system_link_libs: substring-classify the
producer triple and return the fixed per-platform link-library list.
Both arms of the musl test push "c", as in the source. -/
def get_system_link_libs (rustc_target : String) : List String :=
  if str_contains rustc_target "linux" then
    ["pthread", "dl", "m"] ++
      (if str_contains rustc_target "musl" then ["c"] else ["c"])
  else if str_contains rustc_target "darwin" || str_contains rustc_target "macos" then
    ["System", "pthread", "c"]
  else if str_contains rustc_target "windows" then
    ["kernel32", "user32", "shell32", "msvcrt"] ++
      (if str_contains rustc_target "msvc" then ["vcruntime", "ucrt"] else [])
  else if str_contains rustc_target "freebsd" then
    ["pthread", "c", "m"]
  else []

/-- ManifestGenerator::generate_manifest (the Ok wrapper is vacuous:
assembly cannot fail). -/
def generate_manifest (crate_name : String) (artifact : DiscoveredArtifact)
    (headers : List GeneratedHeader) (rustc_target : String) : BuildManifest :=
  { crate_name := crate_name,
    kind := artifact.kind.as_str,
    artifact := artifact.cached_path,
    headers := headers.map (fun h => h.header_path),
    rustc_target := rustc_target,
    link_libs := get_system_link_libs rustc_target,
    link_search := [] }

/-- ManifestGenerator::get_manifest_path:
{cache-root}/{triple-or-native}/{crate}-manifest.json. -/
def get_manifest_path (cache_dir : String) (crate_name : String)
    (target_triple : Option String) : String :=
  pjoin (pjoin cache_dir (target_triple.getD "native")) (crate_name ++ "-manifest.json")

/-- The header-existence loop of ManifestGenerator::validate_manifest:
first missing header yields the error. -/
def check_headers (fs : String → Bool) : List String → Except String Unit
  | [] => .ok ()
  | h :: rest =>
    if !(fs h) then .error ("Header file does not exist: " ++ h)
    else check_headers fs rest

/-- ManifestGenerator::validate_manifest, with the filesystem
(Path::exists) passed explicitly. -/
def validate_manifest (fs : String → Bool) (m : BuildManifest) :
    Except String Unit :=
  if !(fs m.artifact) then
    .error ("Artifact file does not exist: " ++ m.artifact)
  else check_headers fs m.headers

/-- Deleting one path from the modelled filesystem. -/
def remove_path (fs : String → Bool) (p : String) : String → Bool :=
  fun q => fs q && !(q == p)

/-! ## The JSON layer of write_manifest / read_manifest

serde_json values for the field types BuildManifest uses: strings
(String, PathBuf) and arrays of strings. write_manifest serializes the
struct to a JSON object with its fields in declaration order;
read_manifest parses the file content back, failing when a required
field is missing or has the wrong shape. The byte-level pretty-printing
and re-parsing is serde_json's (an external collaborator); the embedding
works at the JSON-value level. -/

inductive Json where
  | str : String → Json
  | arr : List Json → Json
  | obj : List (String × Json) → Json

/-- Derived Serialize for BuildManifest: object with fields in
declaration order, paths as strings, vectors as arrays. -/
def manifest_to_json (m : BuildManifest) : Json :=
  .obj [ ("crate_name", .str m.crate_name),
         ("kind", .str m.kind),
         ("artifact", .str m.artifact),
         ("headers", .arr (m.headers.map Json.str)),
         ("rustc_target", .str m.rustc_target),
         ("link_libs", .arr (m.link_libs.map Json.str)),
         ("link_search", .arr (m.link_search.map Json.str)) ]

def json_get (j : Json) (field : String) : Option Json :=
  match j with
  | .obj fields => fields.lookup field
  | _ => none

def json_as_str : Json → Option String
  | .str s => some s
  | _ => none

def decode_str_list : List Json → Option (List String)
  | [] => some []
  | .str s :: rest => (decode_str_list rest).map (fun l => s :: l)
  | _ => none

def json_as_str_array : Json → Option (List String)
  | .arr xs => decode_str_list xs
  | _ => none

/-- Derived Deserialize for BuildManifest: extract every required field,
failing (none) on a missing field or wrong shape. -/
def manifest_from_json (j : Json) : Option BuildManifest := do
  let crate_name ← json_as_str (← json_get j "crate_name")
  let kind ← json_as_str (← json_get j "kind")
  let artifact ← json_as_str (← json_get j "artifact")
  let headers ← json_as_str_array (← json_get j "headers")
  let rustc_target ← json_as_str (← json_get j "rustc_target")
  let link_libs ← json_as_str_array (← json_get j "link_libs")
  let link_search ← json_as_str_array (← json_get j "link_search")
  pure { crate_name := crate_name, kind := kind, artifact := artifact,
         headers := headers, rustc_target := rustc_target,
         link_libs := link_libs, link_search := link_search }

/-- ManifestGenerator::write_manifest at the value level: the written
path and the serialized content. -/
def write_manifest (cache_dir : String) (m : BuildManifest)
    (target_triple : Option String) : String × Json :=
  (get_manifest_path cache_dir m.crate_name target_triple, manifest_to_json m)

/-- ManifestGenerator::read_manifest at the value level. -/
def read_manifest (content : Json) : Option BuildManifest :=
  manifest_from_json content

/-! ## cli.rs build_command wiring -/

/-- cli.rs get_host_target, cfg branch for an x86_64 linux host. -/
def get_host_target_x86_64_linux : String := "x86_64-unknown-linux-gnu"

/-- cli.rs build_command: choice of the rust target from the override,
the mapped zig target, or the host. -/
def resolve_rust_target (host : String) (zig_target : Option String)
    (rust_target_override : Option String) : String :=
  match rust_target_override with
  | some t => t
  | none =>
    match zig_target with
    | some z => map_target_or_default z
    | none => host

/-- cli.rs build_command: is_cross_compile = rust_target != host. -/
def is_cross_compile (rust_target host : String) : Bool :=
  rust_target != host

/-- cli.rs build_command: the ArtifactDiscovery it constructs — the
target triple passed is always Some(rust_target), cross-compile or not. -/
def build_command_discovery (target_directory : String) (rust_target : String)
    (profile : BuildProfile) : ArtifactDiscovery :=
  ArtifactDiscovery.new target_directory (some rust_target) profile

end Ghostbind

namespace Ghostbind

/-! ## Theorems for target translation (C2) -/

theorem lookup_mem_of_eq_some :
    ∀ {l : List (String × String)} {a v : String},
      l.lookup a = some v → (a, v) ∈ l := by
  intro l
  induction l with
  | nil => intro a v h; simp [List.lookup] at h
  | cons p rest ih =>
    intro a v h
    rw [List.lookup] at h
    by_cases hak : a == p.1
    · simp [hak] at h
      have : a = p.1 := by simpa using hak
      subst this
      subst h
      exact List.mem_cons_self _ _
    · simp [hak] at h
      exact List.mem_cons_of_mem _ (ih h)

theorem table_values_not_keys :
    ∀ p ∈ zig_to_rust_table, zig_to_rust_table.lookup p.2 = none := by
  decide

/-- C2: translate is total; every key of the fixed table maps to its
documented producer triple (in particular x86_64-linux-gnu and
i386-linux-gnu); every string not in the table is returned unchanged;
and translate is idempotent on every input string. -/
theorem translate_total_correct_idempotent :
    (∀ p ∈ zig_to_rust_table, map_target_or_default p.1 = p.2) ∧
    map_target_or_default "x86_64-linux-gnu" = "x86_64-unknown-linux-gnu" ∧
    map_target_or_default "i386-linux-gnu" = "i686-unknown-linux-gnu" ∧
    (∀ x, map_target x = none → map_target_or_default x = x) ∧
    (∀ x, map_target_or_default (map_target_or_default x) = map_target_or_default x) := by
  refine ⟨by decide, by decide, by decide, ?_, ?_⟩
  · intro x h
    simp [map_target_or_default, h]
  · intro x
    unfold map_target_or_default
    cases h : map_target x with
    | none => simp [h]
    | some v =>
      have hmem : (x, v) ∈ zig_to_rust_table := lookup_mem_of_eq_some h
      have hv : zig_to_rust_table.lookup v = none :=
        table_values_not_keys (x, v) hmem
      simp [h, map_target, hv]

/-- C2 witness: instantiating the hypothesis-carrying conjuncts at
concrete inputs. -/
theorem translate_total_correct_idempotent_witness :
    map_target "wasm32-wasi" = none ∧ map_target_or_default "wasm32-wasi" = "wasm32-wasi" := by
  refine ⟨by decide, ?_⟩
  exact translate_total_correct_idempotent.2.2.2.1 "wasm32-wasi" (by decide)

/-! ## Theorems for link-library computation (C3) -/

/-- C3: the link-library computation is a total function; every
producer triple containing "linux", "darwin", or "windows" as a
substring gets a non-empty list containing a threading library
(pthread, or kernel32 — the Windows library exposing the thread API);
every triple containing none of the recognized substrings gets the
empty list, as does "wasm32-unknown-unknown" concretely. -/
theorem link_libs_recognized_nonempty_unrecognized_empty :
    (∀ t : String,
      (str_contains t "linux" = true ∨ str_contains t "darwin" = true ∨
        str_contains t "windows" = true) →
      get_system_link_libs t ≠ [] ∧
      ("pthread" ∈ get_system_link_libs t ∨ "kernel32" ∈ get_system_link_libs t)) ∧
    (∀ t : String,
      str_contains t "linux" = false → str_contains t "darwin" = false →
      str_contains t "macos" = false → str_contains t "windows" = false →
      str_contains t "freebsd" = false → get_system_link_libs t = []) ∧
    get_system_link_libs "wasm32-unknown-unknown" = [] := by
  refine ⟨?_, ?_, by decide⟩
  · intro t h
    by_cases hl : str_contains t "linux"
    · by_cases hm : str_contains t "musl" <;> simp [get_system_link_libs, hl, hm]
    · by_cases hd : str_contains t "darwin"
      · simp [get_system_link_libs, hl, hd]
      · by_cases hmac : str_contains t "macos"
        · simp [get_system_link_libs, hl, hd, hmac]
        · by_cases hw : str_contains t "windows"
          · by_cases hmsvc : str_contains t "msvc" <;>
              simp [get_system_link_libs, hl, hd, hmac, hw, hmsvc]
          · rcases h with h | h | h <;> simp_all
  · intro t hl hd hm hw hf
    simp [get_system_link_libs, hl, hd, hm, hw, hf]

/-- C3 witness: the recognized-substring part at a concrete linux
triple and the unrecognized part at a concrete wasm triple. -/
theorem link_libs_witness :
    (get_system_link_libs "x86_64-unknown-linux-gnu" ≠ [] ∧
      ("pthread" ∈ get_system_link_libs "x86_64-unknown-linux-gnu" ∨
        "kernel32" ∈ get_system_link_libs "x86_64-unknown-linux-gnu")) ∧
    get_system_link_libs "wasm32-unknown-unknown" = [] := by
  constructor
  · exact link_libs_recognized_nonempty_unrecognized_empty.1
      "x86_64-unknown-linux-gnu" (Or.inl (by decide))
  · exact link_libs_recognized_nonempty_unrecognized_empty.2.1
      "wasm32-unknown-unknown" (by decide) (by decide) (by decide) (by decide) (by decide)

/-! ## Theorems for manifest validation (C4) -/

theorem check_headers_ok_iff (fs : String → Bool) (hs : List String) :
    check_headers fs hs = .ok () ↔ ∀ h ∈ hs, fs h = true := by
  induction hs with
  | nil => simp [check_headers]
  | cons h rest ih =>
    by_cases hf : fs h
    · simp [check_headers, hf, ih]
    · simp [check_headers, hf]

theorem validate_manifest_ok_iff (fs : String → Bool) (m : BuildManifest) :
    validate_manifest fs m = .ok () ↔
      fs m.artifact = true ∧ ∀ h ∈ m.headers, fs h = true := by
  by_cases ha : fs m.artifact
  · simp [validate_manifest, ha, check_headers_ok_iff]
  · simp [validate_manifest, ha]

/-- C4: validation succeeds iff every referenced path (artifact and all
headers) exists on disk; and deleting the artifact or any one referenced
header from a filesystem on which the manifest validated makes
validation fail. -/
theorem validate_iff_paths_exist_and_deletion_fails :
    ∀ (fs : String → Bool) (m : BuildManifest),
      (validate_manifest fs m = .ok () ↔
        fs m.artifact = true ∧ ∀ h ∈ m.headers, fs h = true) ∧
      (validate_manifest fs m = .ok () →
        validate_manifest (remove_path fs m.artifact) m ≠ .ok () ∧
        ∀ h ∈ m.headers, validate_manifest (remove_path fs h) m ≠ .ok ()) := by
  intro fs m
  refine ⟨validate_manifest_ok_iff fs m, ?_⟩
  intro _
  constructor
  · intro hbad
    have h1 := (validate_manifest_ok_iff (remove_path fs m.artifact) m).mp hbad
    have : remove_path fs m.artifact m.artifact = true := h1.1
    simp [remove_path] at this
  · intro h hmem hbad
    have h1 := (validate_manifest_ok_iff (remove_path fs h) m).mp hbad
    have : remove_path fs h h = true := h1.2 h hmem
    simp [remove_path] at this

def c4_fs_example : String → Bool := fun q => q == "art" || q == "hdr"

def c4_manifest_example : BuildManifest :=
  { crate_name := "n", kind := "staticlib", artifact := "art", headers := ["hdr"],
    rustc_target := "x86_64-unknown-linux-gnu", link_libs := [], link_search := [] }

/-- C4 witness: a concrete manifest that validates, and fails after
deleting either the artifact or the header. -/
theorem validate_deletion_witness :
    validate_manifest c4_fs_example c4_manifest_example = .ok () ∧
    validate_manifest (remove_path c4_fs_example "art") c4_manifest_example ≠ .ok () ∧
    validate_manifest (remove_path c4_fs_example "hdr") c4_manifest_example ≠ .ok () := by
  have h := validate_iff_paths_exist_and_deletion_fails c4_fs_example c4_manifest_example
  have hok : validate_manifest c4_fs_example c4_manifest_example = .ok () := rfl
  exact ⟨hok, (h.2 hok).1, (h.2 hok).2 "hdr" (by simp [c4_manifest_example])⟩

/-! ## Theorems for artifact discovery (C6, C7) -/

theorem probe_patterns_eq_find (fs : String → Bool) (build_dir : String) :
    ∀ ps : List String,
      probe_patterns fs build_dir ps =
        (ps.map (fun p => pjoin build_dir p)).find? fs := by
  intro ps
  induction ps with
  | nil => rfl
  | cons p rest ih =>
    by_cases h : fs (pjoin build_dir p) <;>
      simp [probe_patterns, List.find?, h, ih]

/-- C6: the build directory is {build-root}/[{triple}/]{profile}, the
triple segment present exactly when a target triple is supplied;
find_artifact probes the candidate filenames in their listed order
under that directory, the first path that exists winning; and when no
candidate exists, it fails with the error string naming the artifact
kind, the crate name, and the exact directory searched. -/
theorem find_artifact_probe_order_and_error :
    ∀ (d : ArtifactDiscovery) (os : HostOS) (fs : String → Bool)
      (crate_name : String) (kind : ArtifactKind),
      (∀ t, d.target_triple = some t →
        d.get_build_directory = pjoin (pjoin d.target_dir t) d.profile.as_str) ∧
      (d.target_triple = none →
        d.get_build_directory = pjoin d.target_dir d.profile.as_str) ∧
      d.find_artifact os fs crate_name kind =
        (match ((get_library_patterns os crate_name kind).map
            (fun p => pjoin d.get_build_directory p)).find? fs with
        | some path =>
          .ok { name := crate_name, kind := kind, original_path := path,
                cached_path := d.get_cache_path os crate_name kind }
        | none =>
          .error ("Could not find " ++ kind.as_str ++ " artifact for crate \x27" ++
            crate_name ++ "\x27 in " ++ d.get_build_directory)) := by
  intro d os fs crate_name kind
  refine ⟨?_, ?_, ?_⟩
  · intro t ht
    simp [ArtifactDiscovery.get_build_directory, ht]
  · intro ht
    simp [ArtifactDiscovery.get_build_directory, ht]
  · simp only [ArtifactDiscovery.find_artifact, probe_patterns_eq_find]

/-- C6 witness: a cross-compile discovery on an empty filesystem fails
with the fully formatted error naming kind, crate, and directory. -/
theorem find_artifact_probe_witness :
    (ArtifactDiscovery.new "target" (some "aarch64-unknown-linux-musl")
        .Release).get_build_directory =
      pjoin (pjoin "target" "aarch64-unknown-linux-musl") BuildProfile.Release.as_str ∧
    (ArtifactDiscovery.new "target" (some "aarch64-unknown-linux-musl")
        .Release).find_artifact .otherUnix (fun _ => false) "foo" .StaticLib =
      .error ("Could not find staticlib artifact for crate \x27foo\x27 in " ++
        "target/aarch64-unknown-linux-musl/release") := by
  have h := find_artifact_probe_order_and_error
    (ArtifactDiscovery.new "target" (some "aarch64-unknown-linux-musl") .Release)
    .otherUnix (fun _ => false) "foo" .StaticLib
  refine ⟨h.1 "aarch64-unknown-linux-musl" rfl, ?_⟩
  rw [h.2.2]
  rfl

/-- C7: every successful discovery's cache destination is
{cache-root}/{triple-or-native}/{profile}/{crate}.{ext}, the first
segment "native" exactly when no triple is supplied and the extension a
function of artifact kind and host platform only — independent of the
filesystem, hence of which candidate filename matched. -/
theorem cached_path_independent_of_matched_candidate :
    ∀ (d : ArtifactDiscovery) (os : HostOS) (fs : String → Bool)
      (crate_name : String) (kind : ArtifactKind) (a : DiscoveredArtifact),
      d.find_artifact os fs crate_name kind = .ok a →
      a.cached_path =
        pjoin (pjoin (pjoin d.cache_dir (d.target_triple.getD "native"))
            d.profile.as_str)
          (crate_name ++ "." ++ get_artifact_extension os kind) := by
  intro d os fs crate_name kind a h
  simp only [ArtifactDiscovery.find_artifact] at h
  split at h
  · cases h
    rfl
  · simp at h

/-- C7 witness: a Windows dynamic-library discovery whose only existing
candidate is the secondary import library {name}.dll.lib is still
cached under the dll extension. -/
theorem cached_path_windows_dll_lib_witness :
    (ArtifactDiscovery.new "target" none .Release).find_artifact .windows
        (fun p => p == "target/release/foo.dll.lib") "foo" .DynamicLib =
      .ok { name := "foo", kind := .DynamicLib,
            original_path := "target/release/foo.dll.lib",
            cached_path := ".ghostbind/cache/native/release/foo.dll" } ∧
    DiscoveredArtifact.cached_path
        { name := "foo", kind := .DynamicLib,
          original_path := "target/release/foo.dll.lib",
          cached_path := ".ghostbind/cache/native/release/foo.dll" } =
      pjoin (pjoin (pjoin ".ghostbind/cache" "native") BuildProfile.Release.as_str)
        ("foo" ++ "." ++ get_artifact_extension .windows .DynamicLib) := by
  constructor
  · rfl
  · exact cached_path_independent_of_matched_candidate
      (ArtifactDiscovery.new "target" none .Release) .windows
      (fun p => p == "target/release/foo.dll.lib") "foo" .DynamicLib _ (by rfl)

/-! ## Theorems for manifest round-trip (C8) -/

theorem map_fixes_mem {f : Char → Char} :
    ∀ {l : List Char} {c : Char}, l.map f = l → c ∈ l → f c = c := by
  intro l
  induction l with
  | nil => intro c _ hc; simp at hc
  | cons a rest ih =>
    intro c hmap hc
    rw [List.map_cons, List.cons.injEq] at hmap
    rcases List.mem_cons.mp hc with rfl | hc
    · exact hmap.1
    · exact ih hmap.2 hc

theorem decode_str_list_map (l : List String) :
    decode_str_list (l.map Json.str) = some l := by
  induction l with
  | nil => rfl
  | cons s rest ih => simp [decode_str_list, ih]

theorem manifest_json_roundtrip (m : BuildManifest) :
    manifest_from_json (manifest_to_json m) = some m := by
  simp [manifest_from_json, manifest_to_json, json_get, json_as_str,
    json_as_str_array, List.lookup, decode_str_list_map]

/-- C8: for every manifest produced by generate_manifest, writing it
with write_manifest and reading the written content back with
read_manifest yields a structurally equal manifest. -/
theorem generate_write_read_roundtrip :
    ∀ (cache_dir crate_name : String) (artifact : DiscoveredArtifact)
      (headers : List GeneratedHeader) (rustc_target : String)
      (target_triple : Option String),
      read_manifest
        (write_manifest cache_dir
          (generate_manifest crate_name artifact headers rustc_target)
          target_triple).2 =
        some (generate_manifest crate_name artifact headers rustc_target) := by
  intro cache_dir crate_name artifact headers rustc_target target_triple
  exact manifest_json_roundtrip _

/-! ## Theorems for hyphen normalization (C5) -/

/-- C5: for every crate name containing a hyphen, all computed library
candidate filenames use the hyphen-to-underscore normalized name (which
contains no hyphen and differs from the original), while the cache
path's filename segment and the manifest's crate-name field keep the
original hyphenated name verbatim. -/
theorem hyphen_normalized_in_patterns_preserved_elsewhere :
    ∀ crate_name : String, '-' ∈ crate_name.toList →
      (get_library_patterns .windows crate_name .StaticLib =
          [normalize_crate_name crate_name ++ ".lib"] ∧
        get_library_patterns .macos crate_name .StaticLib =
          ["lib" ++ normalize_crate_name crate_name ++ ".a"] ∧
        get_library_patterns .otherUnix crate_name .StaticLib =
          ["lib" ++ normalize_crate_name crate_name ++ ".a"] ∧
        get_library_patterns .windows crate_name .DynamicLib =
          [normalize_crate_name crate_name ++ ".dll",
            normalize_crate_name crate_name ++ ".dll.lib"] ∧
        get_library_patterns .macos crate_name .DynamicLib =
          ["lib" ++ normalize_crate_name crate_name ++ ".dylib"] ∧
        get_library_patterns .otherUnix crate_name .DynamicLib =
          ["lib" ++ normalize_crate_name crate_name ++ ".so"]) ∧
      ('-' ∉ (normalize_crate_name crate_name).toList ∧
        normalize_crate_name crate_name ≠ crate_name) ∧
      (∀ (d : ArtifactDiscovery) (os : HostOS) (kind : ArtifactKind),
        d.get_cache_path os crate_name kind =
          pjoin (pjoin (pjoin d.cache_dir (d.target_triple.getD "native"))
              d.profile.as_str)
            (crate_name ++ "." ++ get_artifact_extension os kind)) ∧
      (∀ (artifact : DiscoveredArtifact) (headers : List GeneratedHeader)
          (rustc_target : String),
        (generate_manifest crate_name artifact headers rustc_target).crate_name =
          crate_name) := by
  intro crate_name hmem
  refine ⟨⟨rfl, rfl, rfl, rfl, rfl, rfl⟩, ⟨?_, ?_⟩, fun _ _ _ => rfl, fun _ _ _ => rfl⟩
  · intro hc
    have hc2 : '-' ∈ crate_name.toList.map (fun c => if c = '-' then '_' else c) := hc
    rcases List.mem_map.mp hc2 with ⟨d, _, hd⟩
    by_cases h : d = '-' <;> simp [h] at hd
  · intro heq
    have hdata : crate_name.toList.map (fun c => if c = '-' then '_' else c) =
        crate_name.toList := congrArg String.toList heq
    have := map_fixes_mem hdata hmem
    simp at this

/-- C5 witness: the crate name "my-crate" has a hyphen; its computed
patterns use "my_crate" while the cache path keeps "my-crate". -/
theorem hyphen_normalization_witness :
    '-' ∈ "my-crate".toList ∧
    '-' ∉ (normalize_crate_name "my-crate").toList ∧
    get_library_patterns .otherUnix "my-crate" .StaticLib = ["libmy_crate.a"] ∧
    (ArtifactDiscovery.new "target" none .Release).get_cache_path .otherUnix
      "my-crate" .StaticLib = ".ghostbind/cache/native/release/my-crate.a" := by
  refine ⟨by decide, ?_, by decide, by decide⟩
  exact ((hyphen_normalized_in_patterns_preserved_elsewhere "my-crate" (by decide)).2.1).1

/-! ## Theorem for link_search (C10) -/

/-- C10: for every input combination, the manifest produced by
generate_manifest has an empty link_search list. -/
theorem generate_manifest_link_search_empty :
    ∀ (crate_name : String) (artifact : DiscoveredArtifact)
      (headers : List GeneratedHeader) (rustc_target : String),
      (generate_manifest crate_name artifact headers rustc_target).link_search = [] := by
  intro _ _ _ _
  rfl

/-! ## Theorems for metadata target extraction (C9) -/

/-- C9 counterexample: a target declaring kind tags ["bin","staticlib"]
passes the extraction filter (it includes "staticlib") yet its derived
TargetKind is Bin — the first recognized tag — which is not a library
kind; so not every stored CrateTarget has a library kind. -/
theorem extract_targets_keeps_nonlibrary_kind :
    extract_targets [("foo", ["bin", "staticlib"])] =
      [{ name := "foo", kind := TargetKind.Bin }] ∧
    TargetKind.Bin.is_library = false := by
  decide

theorem from_cargo_kinds_loop_library_of_no_bin (all : List String) :
    ∀ kinds : List String, has_library_tag kinds = true → "bin" ∉ kinds →
      (from_cargo_kinds_loop all kinds).is_library = true := by
  intro kinds
  induction kinds with
  | nil =>
    intro h _
    simp [has_library_tag] at h
  | cons k rest ih =>
    intro h hbin
    by_cases hs : k = "staticlib"
    · simp [from_cargo_kinds_loop, hs, TargetKind.is_library]
    · by_cases hc : k = "cdylib"
      · simp [from_cargo_kinds_loop, hs, hc, TargetKind.is_library]
      · have hkb : k ≠ "bin" := fun hh => hbin (hh ▸ List.mem_cons_self k rest)
        have h2 : has_library_tag rest = true := by
          simp [has_library_tag, List.any_cons, hs, hc] at h
          simpa [has_library_tag] using h
        rw [from_cargo_kinds_loop]
        simp only [hs, hc, hkb, if_false]
        exact ih h2 (fun hm => hbin (List.mem_cons_of_mem _ hm))

/-- C9 amended: the resolver keeps exactly the targets whose kind tags
include "staticlib" or "cdylib", deriving each TargetKind as the first
recognized tag (with raw passthrough fallback) and silently excluding
the rest; every stored CrateTarget therefore has a library kind TAG,
and its derived TargetKind is a library kind whenever its tags do not
also list "bin" before the library tag — but a kept target whose tags
list "bin" first is stored with the non-library kind Bin. -/
theorem extract_targets_characterization :
    ∀ ts : List (String × List String),
      extract_targets ts =
        (ts.filter (fun t => has_library_tag t.2)).map
          (fun t => { name := t.1, kind := from_cargo_kinds t.2 }) ∧
      (∀ ct ∈ extract_targets ts, ∃ p ∈ ts,
        has_library_tag p.2 = true ∧ ct.name = p.1 ∧ ct.kind = from_cargo_kinds p.2) ∧
      (∀ p ∈ ts, has_library_tag p.2 = true →
        ({ name := p.1, kind := from_cargo_kinds p.2 } : CrateTarget) ∈
          extract_targets ts) ∧
      (∀ kinds : List String, has_library_tag kinds = true → "bin" ∉ kinds →
        (from_cargo_kinds kinds).is_library = true) := by
  intro ts
  refine ⟨rfl, ?_, ?_, ?_⟩
  · intro ct hct
    rcases List.mem_map.mp hct with ⟨p, hp, hmk⟩
    rcases List.mem_filter.mp hp with ⟨hmem, hlib⟩
    exact ⟨p, hmem, hlib, by rw [← hmk], by rw [← hmk]⟩
  · intro p hp hlib
    exact List.mem_map.mpr ⟨p, List.mem_filter.mpr ⟨hp, hlib⟩, rfl⟩
  · intro kinds h hbin
    exact from_cargo_kinds_loop_library_of_no_bin kinds kinds h hbin

/-- C9 witness: a staticlib-tagged target is kept with a library kind;
a bin-only target is silently excluded. -/
theorem extract_targets_witness :
    ({ name := "foo", kind := from_cargo_kinds ["staticlib"] } : CrateTarget) ∈
      extract_targets [("foo", ["staticlib"]), ("bar", ["bin"])] ∧
    (from_cargo_kinds ["staticlib"]).is_library = true ∧
    extract_targets [("foo", ["staticlib"]), ("bar", ["bin"])] =
      [{ name := "foo", kind := TargetKind.StaticLib }] := by
  have h := extract_targets_characterization [("foo", ["staticlib"]), ("bar", ["bin"])]
  refine ⟨?_, ?_, by decide⟩
  · exact h.2.2.1 ("foo", ["staticlib"]) (by decide) (by decide)
  · exact h.2.2.2 ["staticlib"] (by decide) (by decide)

/-! ## Theorem for the end-to-end host-build scenario (C1) -/

/-- C1: evaluation of the build_command wiring at the claim's input
(crate my-crate, staticlib, profile release, host triple
x86_64-unknown-linux-gnu, no target flags). The rust target resolves to
the host and is_cross_compile is false, so cargo is invoked without
--target; yet build_command constructs ArtifactDiscovery with
Some(rust_target), so discovery searches
{build-root}/x86_64-unknown-linux-gnu/release — not {build-root}/release
as the claim states — and the cache path's first segment is the triple,
not the literal "native" (and its filename keeps the hyphenated
"my-crate", not "my_crate"). The manifest-content half of the claim
holds: kind "staticlib" and link_libs ["pthread","dl","m","c"]. -/
theorem host_build_pipeline_uses_triple_not_native :
    resolve_rust_target get_host_target_x86_64_linux none none =
      "x86_64-unknown-linux-gnu" ∧
    is_cross_compile "x86_64-unknown-linux-gnu" get_host_target_x86_64_linux = false ∧
    (build_command_discovery "target" "x86_64-unknown-linux-gnu"
        .Release).get_build_directory = "target/x86_64-unknown-linux-gnu/release" ∧
    (build_command_discovery "target" "x86_64-unknown-linux-gnu"
        .Release).get_build_directory ≠ "target/release" ∧
    get_library_patterns .otherUnix "my-crate" .StaticLib = ["libmy_crate.a"] ∧
    (build_command_discovery "target" "x86_64-unknown-linux-gnu"
        .Release).get_cache_path .otherUnix "my-crate" .StaticLib =
      ".ghostbind/cache/x86_64-unknown-linux-gnu/release/my-crate.a" ∧
    (build_command_discovery "target" "x86_64-unknown-linux-gnu"
        .Release).get_cache_path .otherUnix "my-crate" .StaticLib ≠
      ".ghostbind/cache/native/release/my_crate.a" ∧
    (generate_manifest "my-crate"
        { name := "my-crate", kind := .StaticLib,
          original_path := "target/x86_64-unknown-linux-gnu/release/libmy_crate.a",
          cached_path := ".ghostbind/cache/x86_64-unknown-linux-gnu/release/my-crate.a" }
        [] "x86_64-unknown-linux-gnu").kind = "staticlib" ∧
    (generate_manifest "my-crate"
        { name := "my-crate", kind := .StaticLib,
          original_path := "target/x86_64-unknown-linux-gnu/release/libmy_crate.a",
          cached_path := ".ghostbind/cache/x86_64-unknown-linux-gnu/release/my-crate.a" }
        [] "x86_64-unknown-linux-gnu").link_libs = ["pthread", "dl", "m", "c"] := by
  decide

end Ghostbind
